import Mathlib

/-!
Verification development for the Rivestack Terraform provider's
reconciliation and job-completion control layer.

The Go source is shallowly embedded: every remote HTTP interaction is
replaced by a script (a list of pre-decided outcomes that the loop under
study consumes in call order), wall-clock time is replaced by an explicit
elapsed-seconds counter advanced by the same constants the source sleeps
for, and the fallible loops return `Option` (`none` when a script is too
short to decide the run, which never happens under the theorems'
hypotheses).  Context cancellation (`ctx.Done()`) is an external
nondeterministic event and is not modelled; no claim refers to it.
-/

namespace Rivestack

/-- `client.APIError`: an error response from the Rivestack API, classified
by HTTP status code (`internal/client`, part_002). -/
structure APIError where
  statusCode : Nat
  message : String
deriving Repr, DecidableEq

/-- `client.IsNotFound`: true exactly for a 404 response. -/
def IsNotFound (e : APIError) : Bool := e.statusCode == 404

/-- `client.IsConflict`: true exactly for a 409 response. -/
def IsConflict (e : APIError) : Bool := e.statusCode == 409

/-- `client.IsGone`: true exactly for a 410 response. -/
def IsGone (e : APIError) : Bool := e.statusCode == 410

/-- `client.ClusterUser` (types file, part_006). -/
structure ClusterUserRec where
  username : String
  password : String
deriving Repr, DecidableEq

/-- `client.ClusterDatabase`. -/
structure ClusterDatabaseRec where
  dbName : String
  owner : String
deriving Repr, DecidableEq

/-- `client.ClusterExtension`. -/
structure ClusterExtensionRec where
  extension : String
  database : String
deriving Repr, DecidableEq

/-- `client.ClusterGrant` (the numeric id and timestamp play no role in the
control flow under study). -/
structure ClusterGrantRec where
  username : String
  database : String
  access : String
deriving Repr, DecidableEq

/-- `client.Cluster`: the full aggregate returned by `GetCluster`.
Timestamps are kept as opaque strings. -/
structure Cluster where
  id : Int := 0
  tenantID : String := ""
  name : String := ""
  region : String := ""
  dbType : String := ""
  serverType : String := ""
  nodeCount : Int := 0
  postgresqlVersion : Int := 0
  dbName : String := ""
  dbUser : String := ""
  dbPassword : String := ""
  host : String := ""
  connectionString : String := ""
  status : String := ""
  healthStatus : String := ""
  sourceIPs : String := ""
  errorMessage : String := ""
  createdAt : String := ""
  updatedAt : String := ""
  users : List ClusterUserRec := []
  databases : List ClusterDatabaseRec := []
  extensions : List ClusterExtensionRec := []
  grants : List ClusterGrantRec := []
deriving Repr, DecidableEq

/-- `client.Job`: a cluster job as returned by the active-jobs endpoint
(fields not inspected by the pollers are omitted as opaque). -/
structure Job where
  id : Int := 0
  jobType : String := ""
  status : String := ""
  errorMessage : String := ""
deriving Repr, DecidableEq

/-- `client.ConfigUserRequest`. -/
structure ConfigUserRequest where
  username : String
deriving Repr, DecidableEq

/-- `client.ConfigDatabaseRequest`. -/
structure ConfigDatabaseRequest where
  name : String
  owner : String := ""
deriving Repr, DecidableEq

/-- `client.ConfigExtensionRequest`. -/
structure ConfigExtensionRequest where
  extension : String
  database : String := ""
deriving Repr, DecidableEq

/-- `client.ConfigGrantRequest`. -/
structure ConfigGrantRequest where
  username : String
  database : String
  access : String := ""
deriving Repr, DecidableEq

/-- `client.ConfigureRequest`: the unified configure envelope. -/
structure ConfigureRequest where
  users : List ConfigUserRequest := []
  deleteUsers : List String := []
  databases : List ConfigDatabaseRequest := []
  deleteDatabases : List String := []
  extensions : List ConfigExtensionRequest := []
  grants : List ConfigGrantRequest := []
  sourceIPs : List String := []
  deleteIPs : List String := []
  replaceIPs : Bool := false
deriving Repr, DecidableEq

/-- `client.ConfigUserResponse`. -/
structure ConfigUserResponse where
  username : String
  password : String
deriving Repr, DecidableEq

/-- `client.ConfigDBResponse`. -/
structure ConfigDBResponse where
  name : String
  owner : String
deriving Repr, DecidableEq

/-- `client.ConfigExtResponse`. -/
structure ConfigExtResponse where
  extension : String
  database : String
deriving Repr, DecidableEq

/-- `client.ConfigureResponse` (fields unused by the resources omitted as
opaque; `jobID` is a Go `int`, zero meaning no asynchronous job spawned). -/
structure ConfigureResponse where
  message : String := ""
  jobID : Int := 0
  users : List ConfigUserResponse := []
  databases : List ConfigDBResponse := []
  extensions : List ConfigExtResponse := []
  sourceIPs : List String := []
deriving Repr, DecidableEq

/-- One scripted outcome of a `ConfigureCluster` HTTP call. -/
abbrev ConfigureAttempt := Except APIError ConfigureResponse

/-- The error classification produced by `ConfigureWithRetry`: a raw
non-conflict API error propagated as-is, or a timeout error wrapping the
last conflict (built with `fmt.Errorf`, hence no longer an `*APIError`). -/
inductive ConfigureErr where
  | api (e : APIError)
  | timeout (lastConflict : APIError)
deriving Repr, DecidableEq

/-- `Client.ConfigureWithRetry` (part_003): call `ConfigureCluster`; return
a success at once; propagate a non-conflict error at once; on conflict,
fail with a timeout wrapping the conflict when past the deadline, else
sleep 10 s and retry.  `elapsed` is seconds since the deadline base
(`deadline = start + maxWait`; Go's `time.Now().After(deadline)` is the
strict test `elapsed > maxWait`).  The second result component counts the
configure calls made. -/
def configureWithRetryAux :
    List ConfigureAttempt → Nat → Nat →
    Option (Except ConfigureErr ConfigureResponse × Nat)
  | [], _, _ => none
  | r :: rest, elapsed, maxWait =>
    match r with
    | .ok resp => some (.ok resp, 1)
    | .error e =>
      if ¬ IsConflict e then some (.error (.api e), 1)
      else if elapsed > maxWait then some (.error (.timeout e), 1)
      else
        match configureWithRetryAux rest (elapsed + 10) maxWait with
        | none => none
        | some (res, n) => some (res, n + 1)

/-- `ConfigureWithRetry` started at the deadline base. -/
def configureWithRetry (responses : List ConfigureAttempt) (maxWait : Nat) :
    Option (Except ConfigureErr ConfigureResponse × Nat) :=
  configureWithRetryAux responses 0 maxWait

/-- The failure classification of `WaitForJobComplete`. -/
inductive JobWaitErr where
  | poll (e : APIError)
  | jobFailed (id : Int) (jobType : String) (msg : String)
  | timeout
deriving Repr, DecidableEq

/-- `Client.WaitForJobComplete` (part_003): while strictly before the
deadline, fetch the active-job list; propagate a fetch error; succeed on an
empty list; fail on the first job whose status is "failed"; otherwise sleep
10 s and poll again.  After the deadline, fail with a timeout.  The second
result component counts the polls made. -/
def waitForJobCompleteAux :
    List (Except APIError (List Job)) → Nat → Nat →
    Option (Except JobWaitErr Unit × Nat)
  | [], elapsed, timeout =>
    if elapsed < timeout then none else some (.error .timeout, 0)
  | p :: rest, elapsed, timeout =>
    if elapsed < timeout then
      match p with
      | .error e => some (.error (.poll e), 1)
      | .ok jobs =>
        if jobs.isEmpty then some (.ok (), 1)
        else
          match jobs.find? (fun j => j.status == "failed") with
          | some j => some (.error (.jobFailed j.id j.jobType j.errorMessage), 1)
          | none =>
            match waitForJobCompleteAux rest (elapsed + 10) timeout with
            | none => none
            | some (res, n) => some (res, n + 1)
    else some (.error .timeout, 0)

/-- `WaitForJobComplete` started at the deadline base. -/
def waitForJobComplete (polls : List (Except APIError (List Job)))
    (timeout : Nat) : Option (Except JobWaitErr Unit × Nat) :=
  waitForJobCompleteAux polls 0 timeout

/-- The failure classification of `WaitForClusterActive`. -/
inductive ActiveWaitErr where
  | poll (e : APIError)
  | provisionFailed (msg : String)
  | unexpectedStatus (s : String)
  | timeout
deriving Repr, DecidableEq

/-- `Client.WaitForClusterActive` (clusters.go): while strictly before the
deadline, fetch the cluster; propagate a fetch error; succeed on status
"active"; fail on "failed" with the cluster's error message; keep polling
(15 s interval) on "provisioning"; hard-fail on any other status. -/
def waitForClusterActiveAux :
    List (Except APIError Cluster) → Nat → Nat →
    Option (Except ActiveWaitErr Cluster)
  | [], elapsed, timeout =>
    if elapsed < timeout then none else some (.error .timeout)
  | p :: rest, elapsed, timeout =>
    if elapsed < timeout then
      match p with
      | .error e => some (.error (.poll e))
      | .ok c =>
        if c.status == "active" then some (.ok c)
        else if c.status == "failed" then
          some (.error (.provisionFailed c.errorMessage))
        else if c.status == "provisioning" then
          waitForClusterActiveAux rest (elapsed + 15) timeout
        else some (.error (.unexpectedStatus c.status))
    else some (.error .timeout)

/-- `WaitForClusterActive` started at the deadline base. -/
def waitForClusterActive (polls : List (Except APIError Cluster))
    (timeout : Nat) : Option (Except ActiveWaitErr Cluster) :=
  waitForClusterActiveAux polls 0 timeout

/-- The failure classification of `WaitForClusterDeleted`. -/
inductive DeletedWaitErr where
  | poll (e : APIError)
  | timeout
deriving Repr, DecidableEq

/-- `Client.WaitForClusterDeleted` (clusters.go): while strictly before the
deadline, fetch the cluster; a 404/410 fetch error is success, any other
fetch error propagates; status "deleted" is success; ANY other status keeps
polling (10 s interval) — there is no unexpected-status branch here. -/
def waitForClusterDeletedAux :
    List (Except APIError Cluster) → Nat → Nat →
    Option (Except DeletedWaitErr Unit)
  | [], elapsed, timeout =>
    if elapsed < timeout then none else some (.error .timeout)
  | p :: rest, elapsed, timeout =>
    if elapsed < timeout then
      match p with
      | .error e =>
        if IsNotFound e || IsGone e then some (.ok ())
        else some (.error (.poll e))
      | .ok c =>
        if c.status == "deleted" then some (.ok ())
        else waitForClusterDeletedAux rest (elapsed + 10) timeout
    else some (.error .timeout)

/-- `WaitForClusterDeleted` started at the deadline base. -/
def waitForClusterDeleted (polls : List (Except APIError Cluster))
    (timeout : Nat) : Option (Except DeletedWaitErr Unit) :=
  waitForClusterDeletedAux polls 0 timeout

/-- Splitting a character list at every slash (the only separator the id
parsers use); the piece list is never empty. -/
def splitOnSlash : List Char → List (List Char)
  | [] => [[]]
  | c :: cs =>
    if c = '/' then [] :: splitOnSlash cs
    else
      match splitOnSlash cs with
      | [] => [[c]]
      | p :: ps => (c :: p) :: ps

/-- Re-joining pieces with slashes (the unsplit remainder of `SplitN`). -/
def joinWithSlash : List (List Char) → List Char
  | [] => []
  | [p] => p
  | p :: ps => p ++ '/' :: joinWithSlash ps

/-- Go's `strings.SplitN(s, "/", n)` for `n ≥ 1`: at most `n` pieces, the
last piece holding the unsplit remainder (separators included). -/
def splitN (s : String) (n : Nat) : List String :=
  let parts := splitOnSlash s.data
  let kept :=
    if parts.length ≤ n then parts
    else parts.take (n - 1) ++ [joinWithSlash (parts.drop (n - 1))]
  kept.map (fun cs => String.mk cs)

/-- A single decimal digit of Go's `strconv.Atoi`. -/
def digitVal (c : Char) : Option Nat :=
  if c.isDigit then some (c.toNat - 48) else none

/-- The all-digits accumulator of Go's `strconv.Atoi`. -/
def parseDigitsAux : List Char → Nat → Option Nat
  | [], acc => some acc
  | c :: cs, acc =>
    match digitVal c with
    | none => none
    | some d => parseDigitsAux cs (acc * 10 + d)

/-- Go's `strconv.Atoi`: an optional sign followed by one or more decimal
digits and nothing else.  (Go's 64-bit range check is not modelled; no
cluster id in this development approaches it.) -/
def atoi (s : String) : Option Int :=
  match s.data with
  | [] => none
  | '-' :: [] => none
  | '+' :: [] => none
  | '-' :: rest => (parseDigitsAux rest 0).map (fun n => -(n : Int))
  | '+' :: rest => (parseDigitsAux rest 0).map (fun n => (n : Int))
  | cs => (parseDigitsAux cs 0).map (fun n => (n : Int))

/-- `parseUserID` (cluster_user/resource.go): split on the first slash into
exactly two parts, then parse the numeric cluster id.  Extra slashes end up
inside the username part because `SplitN` is called with `n = 2`. -/
def parseUserID (id : String) : Except String (Int × String) :=
  match splitN id 2 with
  | [a, b] =>
    match atoi a with
    | none => .error "invalid cluster ID"
    | some cid => .ok (cid, b)
  | _ => .error "expected format: cluster_id/username"

/-- `parseDatabaseID` (cluster_database resource): same shape as
`parseUserID`. -/
def parseDatabaseID (id : String) : Except String (Int × String) :=
  match splitN id 2 with
  | [a, b] =>
    match atoi a with
    | none => .error "invalid cluster ID"
    | some cid => .ok (cid, b)
  | _ => .error "expected format: cluster_id/database_name"

/-- `parseExtensionID` (cluster_extension resource): `SplitN` with `n = 3`. -/
def parseExtensionID (id : String) : Except String (Int × String × String) :=
  match splitN id 3 with
  | [a, b, c] =>
    match atoi a with
    | none => .error "invalid cluster ID"
    | some cid => .ok (cid, b, c)
  | _ => .error "expected format: cluster_id/extension/database"

/-- `parseGrantID` (cluster_grant resource): `SplitN` with `n = 3`. -/
def parseGrantID (id : String) : Except String (Int × String × String) :=
  match splitN id 3 with
  | [a, b, c] =>
    match atoi a with
    | none => .error "invalid cluster ID"
    | some cid => .ok (cid, b, c)
  | _ => .error "expected format: cluster_id/username/database"

/-- Outcome of `clusterUserResource.Read` as seen by the state store. -/
inductive ReadOutcome where
  | parseErr (msg : String)
  | removed
  | readErr (e : APIError)
  | refreshed
deriving Repr, DecidableEq

/-- `clusterUserResource.Read`: parse the stored composite id (aborting
before any HTTP call on a parse error), then fetch the cluster once
(404/410 and a missing username both remove the resource from state).  The
second component counts the `GetCluster` calls made. -/
def clusterUserRead (stateID : String) (get : Except APIError Cluster) :
    ReadOutcome × Nat :=
  match parseUserID stateID with
  | .error msg => (.parseErr msg, 0)
  | .ok (_, username) =>
    match get with
    | .error e =>
      if IsNotFound e || IsGone e then (.removed, 1) else (.readErr e, 1)
    | .ok c =>
      if (c.users.find? (fun u => u.username == username)).isSome then
        (.refreshed, 1)
      else (.removed, 1)

/-- The password extraction step of `clusterUserResource.Create` (lines
151-161): scan the immediate configure response for the username and take
its generated password; when absent, the plan's prior password value
(unknown at create time, modelled as `prior`) is simply left in place —
there is no cluster re-read, no default and no placeholder for it. -/
def resolveUserPassword (resp : ConfigureResponse) (username : String)
    (prior : Option String) : Option String :=
  match resp.users.find? (fun u => u.username == username) with
  | some u => some u.password
  | none => prior

/-- The owner resolution step of `clusterDatabaseResource.Create` (lines
437-461): take the owner from the immediate configure response; when the
plan's owner is still unset, re-read the cluster once and scan its
databases; when still unset, persist the empty string.  `planOwner` is the
plan's owner (`none` for null/unknown); the second component counts the
`GetCluster` calls made. -/
def resolveDatabaseOwner (resp : ConfigureResponse) (dbName : String)
    (planOwner : Option String) (get : Except APIError Cluster) :
    String × Nat :=
  let afterResp : Option String :=
    match resp.databases.find? (fun d => d.name == dbName) with
    | some d => some d.owner
    | none => planOwner
  match afterResp with
  | some o => (o, 0)
  | none =>
    let afterGet : Option String :=
      match get with
      | .ok c =>
        match c.databases.find? (fun d => d.dbName == dbName) with
        | some d => some d.owner
        | none => none
      | .error _ => none
    (afterGet.getD "", 1)

/-- The database resolution step of `clusterExtensionResource.Create`
(part_000 lines 142-178): take the database from the immediate configure
response; if still empty, re-read the cluster and scan its extensions; if
still empty, use the plan value when set, else re-read the cluster again
for its default database name; an empty string is persisted when even that
read fails.  The second component counts the `GetCluster` calls made. -/
def resolveExtensionDatabase (resp : ConfigureResponse) (extName : String)
    (planDB : Option String) (get1 get2 : Except APIError Cluster) :
    String × Nat :=
  let dResp : String :=
    match resp.extensions.find? (fun x => x.extension == extName) with
    | some x => x.database
    | none => ""
  if dResp == "" then
    let dGet : String :=
      match get1 with
      | .ok c =>
        match c.extensions.find? (fun x => x.extension == extName) with
        | some x => x.database
        | none => ""
      | .error _ => ""
    if dGet == "" then
      match planDB with
      | some d => (d, 1)
      | none =>
        match get2 with
        | .ok c => (c.dbName, 2)
        | .error _ => ("", 2)
    else (dGet, 1)
  else (dResp, 0)

/-- Error classification of an entity create driven by the configure
endpoint. -/
inductive CreateErr where
  | invalidClusterID (raw : String)
  | configure (e : ConfigureErr)
  | jobWait (e : JobWaitErr)
deriving Repr, DecidableEq

/-- The state record persisted by `clusterUserResource.Create`. -/
structure ClusterUserState where
  id : String
  clusterID : String
  username : String
  password : Option String
deriving Repr, DecidableEq

/-- The remote script consumed by a configure-driven create or delete: the
outcomes of successive `ConfigureCluster` calls and of successive
active-job polls. -/
structure ConfigureScript where
  configure : List ConfigureAttempt
  jobPolls : List (Except APIError (List Job))
deriving Repr

/-- `clusterUserResource.Create`: parse the cluster id, submit the one-user
configure request through `ConfigureWithRetry` (2 min window), wait for job
completion (5 min window) only when the response carries a positive job id,
build the composite id and extract the generated password from the
immediate response.  `prior` is the plan's prior password value (unknown).
The `pollCount` field counts the active-job polls made. -/
def clusterUserCreate (clusterIDRaw username : String)
    (prior : Option String) (remote : ConfigureScript) :
    Option (Except CreateErr ClusterUserState × Nat) :=
  match atoi clusterIDRaw with
  | none => some (.error (.invalidClusterID clusterIDRaw), 0)
  | some cid =>
    match configureWithRetry remote.configure (2 * 60) with
    | none => none
    | some (.error e, _) => some (.error (.configure e), 0)
    | some (.ok resp, _) =>
      let afterWait : Option (Except JobWaitErr Unit × Nat) :=
        if resp.jobID > 0 then waitForJobComplete remote.jobPolls (5 * 60)
        else some (.ok (), 0)
      match afterWait with
      | none => none
      | some (.error e, n) => some (.error (.jobWait e), n)
      | some (.ok _, n) =>
        some (.ok
          { id := toString cid ++ "/" ++ username
            clusterID := clusterIDRaw
            username := username
            password := resolveUserPassword resp username prior }, n)

/-- Error classification of a configure-driven delete. -/
inductive EntityDeleteErr where
  | configure (e : ConfigureErr)
  | jobWait (e : JobWaitErr)
deriving Repr, DecidableEq

/-- The absence test applied by the delete paths to the error coming out of
`ConfigureWithRetry`.  `IsNotFound`/`IsGone` are plain type assertions on
`*APIError` in Go, so the `fmt.Errorf`-wrapped timeout error never passes. -/
def configureErrAbsent : ConfigureErr → Bool
  | .api e => IsNotFound e || IsGone e
  | .timeout _ => false

/-- `clusterUserResource.Delete` after id parsing: submit the delete-user
configure request; a 404/410 from it completes the delete silently; any
other error surfaces; on success, wait for job completion only when a
positive job id came back. -/
def clusterUserDelete (remote : ConfigureScript) :
    Option (Except EntityDeleteErr Unit) :=
  match configureWithRetry remote.configure (2 * 60) with
  | none => none
  | some (.error e, _) =>
    if configureErrAbsent e then some (.ok ())
    else some (.error (.configure e))
  | some (.ok resp, _) =>
    if resp.jobID > 0 then
      match waitForJobComplete remote.jobPolls (5 * 60) with
      | none => none
      | some (.error e, _) => some (.error (.jobWait e))
      | some (.ok _, _) => some (.ok ())
    else some (.ok ())

/-- `clusterDatabaseResource.Delete` after id parsing: identical control
flow to the user delete (delete-database payload). -/
def clusterDatabaseDelete (remote : ConfigureScript) :
    Option (Except EntityDeleteErr Unit) :=
  match configureWithRetry remote.configure (2 * 60) with
  | none => none
  | some (.error e, _) =>
    if configureErrAbsent e then some (.ok ())
    else some (.error (.configure e))
  | some (.ok resp, _) =>
    if resp.jobID > 0 then
      match waitForJobComplete remote.jobPolls (5 * 60) with
      | none => none
      | some (.error e, _) => some (.error (.jobWait e))
      | some (.ok _, _) => some (.ok ())
    else some (.ok ())

/-- `clusterFirewallResource.Delete` after id parsing: submit the allow-all
reset through `ConfigureWithRetry`; a 404/410 completes silently; any other
error surfaces; no job wait is performed in this path. -/
def clusterFirewallDelete (configure : List ConfigureAttempt) :
    Option (Except ConfigureErr Unit) :=
  match configureWithRetry configure (2 * 60) with
  | none => none
  | some (.error e, _) =>
    if configureErrAbsent e then some (.ok ()) else some (.error e)
  | some (.ok _, _) => some (.ok ())

/-- `client.BackupConfig` (fields beyond the control flow kept opaque). -/
structure BackupConfig where
  enabled : Bool := false
  schedule : String := ""
  retentionFull : Int := 0
deriving Repr, DecidableEq

/-- `clusterBackupConfigResource.Delete` after id parsing: one direct
`UpdateBackupConfig` call re-enabling with `enabled = false`; a 404/410
completes silently; any other error surfaces. -/
def clusterBackupConfigDelete (result : Except APIError BackupConfig) :
    Except APIError Unit :=
  match result with
  | .error e =>
    if IsNotFound e || IsGone e then .ok () else .error e
  | .ok _ => .ok ()

/-- Error classification of `clusterResource.Delete`. -/
inductive ClusterDeleteErr where
  | api (e : APIError)
  | wait (e : DeletedWaitErr)
deriving Repr, DecidableEq

/-- `clusterResource.Delete` after id parsing: one `DeleteCluster` call; a
404/410 from it completes the delete at once (the deletion poller is then
skipped); any other error surfaces; on success, poll `WaitForClusterDeleted`
with a 10 min window. -/
def clusterDelete (deleteResult : Except APIError Unit)
    (waitPolls : List (Except APIError Cluster)) :
    Option (Except ClusterDeleteErr Unit) :=
  match deleteResult with
  | .error e =>
    if IsNotFound e || IsGone e then some (.ok ())
    else some (.error (.api e))
  | .ok _ =>
    match waitForClusterDeleted waitPolls (10 * 60) with
    | none => none
    | some (.ok _) => some (.ok ())
    | some (.error e) => some (.error (.wait e))

/-- The configure request built by `clusterFirewallResource.Create`: the
full desired IP set with the replace flag, no delete list. -/
def firewallCreateRequest (sourceIPs : List String) : ConfigureRequest :=
  { sourceIPs := sourceIPs, replaceIPs := true }

/-- The configure request built by `clusterFirewallResource.Update`:
identical to create — the full desired set with the replace flag. -/
def firewallUpdateRequest (sourceIPs : List String) : ConfigureRequest :=
  { sourceIPs := sourceIPs, replaceIPs := true }

/-- The configure request built by `clusterFirewallResource.Delete`: the
explicit allow-all single-entry set with the replace flag. -/
def firewallDeleteRequest : ConfigureRequest :=
  { sourceIPs := ["0.0.0.0/0"], replaceIPs := true }

/-- Modelled from the spec: the remote gateway's handling of the envelope's
IP-set fields (the server is not part of this repository).  Per the unified
configure envelope of spec section 6, the request carries source IPs to add,
IPs to delete, and a replace-vs-merge flag: with the flag set the allowlist
becomes exactly the submitted set; without it the submitted sets are merged
as an add/remove diff. -/
def applySourceIPs (current : List String) (req : ConfigureRequest) :
    List String :=
  if req.replaceIPs then req.sourceIPs
  else current.filter (fun ip => !(req.deleteIPs.contains ip)) ++ req.sourceIPs

/-- The observable effect of a delete handler on the world outside the
local state store. -/
structure DeleteEffect where
  remoteCalls : Nat
  warnings : List String
  succeeded : Bool
deriving Repr, DecidableEq

/-- `clusterExtensionResource.Delete` (part_000 lines 233-237): the body is
a single operator-facing warning — no client call of any kind, unconditional
local success.  The remote script argument stands for whatever state the
remote system is in; the handler never consults it. -/
def clusterExtensionDelete (_remote : ConfigureScript) : DeleteEffect :=
  { remoteCalls := 0
    warnings := ["Extension removal is not supported by the Rivestack API. The extension remains installed on the cluster but is removed from Terraform state."]
    succeeded := true }

/-- `clusterGrantResource.Delete` (cluster_grant/resource.go lines 247-251):
same shape — a single warning, no remote call, unconditional local success. -/
def clusterGrantDelete (_remote : ConfigureScript) : DeleteEffect :=
  { remoteCalls := 0
    warnings := ["Grant revocation is not supported by the Rivestack API. The grant remains on the cluster but is removed from Terraform state."]
    succeeded := true }

/-- One remote call issued by `clusterResource.Update`. -/
inductive NodeCall where
  | addNode
  | removeNode (name : String)
  | waitJob
  | getCluster
deriving Repr, DecidableEq

/-- The remote script consumed by `clusterResource.Update`: scripted
outcomes for successive `AddNode`, `RemoveNode`, `WaitForJobComplete` and
`GetCluster` calls (the add/remove response bodies are discarded by the
update handler, so they are modelled as `Unit`). -/
structure ScaleScript where
  add : List (Except APIError Unit)
  rem : List (Except APIError Unit)
  wait : List (Except JobWaitErr Unit)
  get : List (Except APIError Cluster)
deriving Repr

/-- Error classification of `clusterResource.Update`. -/
inductive UpdateErr where
  | invalidClusterID (raw : String)
  | addNode (e : APIError)
  | addWait (e : JobWaitErr)
  | readForRemoval (e : APIError)
  | removeNode (name : String) (e : APIError)
  | removeWait (e : JobWaitErr)
  | readAfterUpdate (e : APIError)
deriving Repr, DecidableEq

/-- The scale-out loop of `clusterResource.Update` (`for i := oldCount;
i < newCount; i++`): one `AddNode`, then one `WaitForJobComplete` (10 min
window), aborting the remainder on the first failure of either.  Returns
the remaining script with the trace of calls made. -/
def scaleUp : Nat → ScaleScript → Option (Except UpdateErr ScaleScript × List NodeCall)
  | 0, s => some (.ok s, [])
  | fuel + 1, s =>
    match s.add with
    | [] => none
    | a :: addRest =>
      let s1 := { s with add := addRest }
      match a with
      | .error e => some (.error (.addNode e), [.addNode])
      | .ok _ =>
        match s1.wait with
        | [] => none
        | w :: waitRest =>
          let s2 := { s1 with wait := waitRest }
          match w with
          | .error e => some (.error (.addWait e), [.addNode, .waitJob])
          | .ok _ =>
            match scaleUp fuel s2 with
            | none => none
            | some (res, tr) => some (res, .addNode :: .waitJob :: tr)

/-- The scale-in loop of `clusterResource.Update` (`for i := oldCount;
i > newCount; i--`): remove the node named
`fmt.Sprintf("%s-db-%d", tenantID, i)` — highest index first — then wait
for its job, aborting the remainder on the first failure of either. -/
def scaleDown (tenantID : String) :
    Int → Nat → ScaleScript → Option (Except UpdateErr ScaleScript × List NodeCall)
  | _, 0, s => some (.ok s, [])
  | i, fuel + 1, s =>
    let nodeName := tenantID ++ "-db-" ++ toString i
    match s.rem with
    | [] => none
    | r :: remRest =>
      let s1 := { s with rem := remRest }
      match r with
      | .error e => some (.error (.removeNode nodeName e), [.removeNode nodeName])
      | .ok _ =>
        match s1.wait with
        | [] => none
        | w :: waitRest =>
          let s2 := { s1 with wait := waitRest }
          match w with
          | .error e =>
            some (.error (.removeWait e), [.removeNode nodeName, .waitJob])
          | .ok _ =>
            match scaleDown tenantID (i - 1) fuel s2 with
            | none => none
            | some (res, tr) => some (res, .removeNode nodeName :: .waitJob :: tr)

/-- The final state refresh of `clusterResource.Update`: one `GetCluster`
call whose failure surfaces as an error. -/
def refreshAfterUpdate (s : ScaleScript) (tr : List NodeCall) :
    Option (Except UpdateErr Unit × List NodeCall) :=
  match s.get with
  | [] => none
  | g :: _ =>
    match g with
    | .error e => some (.error (.readAfterUpdate e), tr ++ [.getCluster])
    | .ok _ => some (.ok (), tr ++ [.getCluster])

/-- The node-count reconciliation of `clusterResource.Update` (data_source.go
lines 500-581), after plan/state decoding and id parsing: when the counts
differ, scale out via sequential add+wait pairs, or re-read the cluster for
its tenant identifier and scale in via sequential remove+wait pairs (highest
numbered node first); then refresh state with one final `GetCluster`.  The
result carries the complete ordered trace of remote calls. -/
def clusterUpdate (oldCount newCount : Int) (s : ScaleScript) :
    Option (Except UpdateErr Unit × List NodeCall) :=
  if newCount == oldCount then refreshAfterUpdate s []
  else if oldCount < newCount then
    match scaleUp (newCount - oldCount).toNat s with
    | none => none
    | some (.error e, tr) => some (.error e, tr)
    | some (.ok s2, tr) => refreshAfterUpdate s2 tr
  else
    match s.get with
    | [] => none
    | g :: getRest =>
      let s1 := { s with get := getRest }
      match g with
      | .error e => some (.error (.readForRemoval e), [.getCluster])
      | .ok c =>
        match scaleDown c.tenantID oldCount (oldCount - newCount).toNat s1 with
        | none => none
        | some (.error e, tr) => some (.error e, .getCluster :: tr)
        | some (.ok s2, tr) => refreshAfterUpdate s2 (.getCluster :: tr)

/-! ### Helper lemmas -/

/-- Unfolding equation: a successful attempt returns at once. -/
theorem configureWithRetryAux_ok (resp : ConfigureResponse)
    (rest : List ConfigureAttempt) (e maxWait : Nat) :
    configureWithRetryAux (.ok resp :: rest) e maxWait = some (.ok resp, 1) := rfl

/-- Unfolding equation for a failed attempt. -/
theorem configureWithRetryAux_err (a : APIError)
    (rest : List ConfigureAttempt) (e maxWait : Nat) :
    configureWithRetryAux (.error a :: rest) e maxWait
      = if ¬ IsConflict a then some (.error (.api a), 1)
        else if e > maxWait then some (.error (.timeout a), 1)
        else
          match configureWithRetryAux rest (e + 10) maxWait with
          | none => none
          | some (res, n) => some (res, n + 1) := rfl

/-- Skipping a block of conflict attempts, each of which passes the deadline
check, advances the clock by 10 s per attempt and adds the block to the
attempt count. -/
theorem configureWithRetryAux_skip (ce : APIError) (hce : IsConflict ce = true) :
    ∀ (k : Nat) (rest : List ConfigureAttempt) (e maxWait : Nat),
      (∀ i, i < k → e + 10 * i ≤ maxWait) →
      configureWithRetryAux (List.replicate k (.error ce) ++ rest) e maxWait
        = (configureWithRetryAux rest (e + 10 * k) maxWait).map
            (fun p => (p.1, p.2 + k)) := by
  intro k
  induction k with
  | zero =>
    intro rest e maxWait _
    simp only [List.replicate, List.nil_append, Nat.mul_zero, Nat.add_zero]
    cases configureWithRetryAux rest e maxWait with
    | none => rfl
    | some p => rfl
  | succ k ih =>
    intro rest e maxWait h
    have h0 : e ≤ maxWait := by
      have := h 0 (Nat.succ_pos k)
      omega
    rw [List.replicate_succ, List.cons_append, configureWithRetryAux_err]
    rw [if_neg (by simp [hce]), if_neg (by omega)]
    rw [ih rest (e + 10) maxWait (fun i hi => by
      have := h (i + 1) (Nat.succ_lt_succ hi)
      omega)]
    have heq : e + 10 + 10 * k = e + 10 * (k + 1) := by ring
    rw [heq]
    cases configureWithRetryAux rest (e + 10 * (k + 1)) maxWait with
    | none => rfl
    | some p =>
      cases p with
      | mk r n =>
        show some (r, n + k + 1) = some (r, n + (k + 1))
        rw [Nat.add_assoc]

/-- Unfolding equation: the empty poll script. -/
theorem waitForJobCompleteAux_nil (e t : Nat) :
    waitForJobCompleteAux [] e t
      = if e < t then none else some (.error .timeout, 0) := rfl

/-- Unfolding equation for a failed active-job fetch. -/
theorem waitForJobCompleteAux_cons_err (a : APIError)
    (rest : List (Except APIError (List Job))) (e t : Nat) :
    waitForJobCompleteAux (.error a :: rest) e t
      = if e < t then some (.error (.poll a), 1)
        else some (.error .timeout, 0) := rfl

/-- Unfolding equation for a successful active-job fetch. -/
theorem waitForJobCompleteAux_cons_ok (jobs : List Job)
    (rest : List (Except APIError (List Job))) (e t : Nat) :
    waitForJobCompleteAux (.ok jobs :: rest) e t
      = if e < t then
          if jobs.isEmpty then some (.ok (), 1)
          else
            match jobs.find? (fun j => j.status == "failed") with
            | some j =>
              some (.error (.jobFailed j.id j.jobType j.errorMessage), 1)
            | none =>
              match waitForJobCompleteAux rest (e + 10) t with
              | none => none
              | some (res, n) => some (res, n + 1)
        else some (.error .timeout, 0) := rfl

/-- Skipping a block of benign active-job polls (each non-empty with no
failed job), all strictly before the deadline, advances the clock by 10 s
per poll and adds the block to the poll count. -/
theorem waitForJobCompleteAux_skip :
    ∀ (pre rest : List (Except APIError (List Job))) (e t : Nat),
      (∀ p ∈ pre, ∃ jobs, p = .ok jobs ∧ jobs ≠ [] ∧
         jobs.find? (fun j => j.status == "failed") = none) →
      e + 10 * pre.length < t →
      waitForJobCompleteAux (pre ++ rest) e t
        = (waitForJobCompleteAux rest (e + 10 * pre.length) t).map
            (fun p => (p.1, p.2 + pre.length)) := by
  intro pre
  induction pre with
  | nil =>
    intro rest e t _ _
    simp only [List.nil_append, List.length_nil, Nat.mul_zero, Nat.add_zero]
    cases waitForJobCompleteAux rest e t with
    | none => rfl
    | some p => rfl
  | cons p pre ih =>
    intro rest e t hben hdl
    obtain ⟨jobs, hp, hne, hnf⟩ := hben p (List.mem_cons_self p pre)
    subst hp
    simp only [List.length_cons] at hdl
    have he : e < t := by omega
    have hempty : jobs.isEmpty = false := by
      cases jobs with
      | nil => exact absurd rfl hne
      | cons j js => rfl
    rw [List.cons_append, waitForJobCompleteAux_cons_ok, if_pos he,
       if_neg (by simp [hempty]), hnf]
    rw [ih rest (e + 10) t
      (fun q hq => hben q (List.mem_cons_of_mem _ hq))
      (by omega)]
    have heq : e + 10 + 10 * pre.length = e + 10 * (pre.length + 1) := by ring
    rw [heq]
    simp only [List.length_cons]
    cases waitForJobCompleteAux rest (e + 10 * (pre.length + 1)) t with
    | none => rfl
    | some q =>
      cases q with
      | mk r n =>
        show some (r, n + pre.length + 1) = some (r, n + (pre.length + 1))
        rw [Nat.add_assoc]

/-! ### Claims -/

/-- C1: `ConfigureWithRetry` absorbs conflicts — conflict on attempts 1..k
followed by success returns the attempt-(k+1) response (when each conflict
attempt is still within the `maxWait` deadline); all-conflict runs end in a
timeout error wrapping the last conflict, not a raw conflict error; and the
first non-conflict error is returned immediately, after exactly the
attempts made so far. -/
theorem C1_conflict_retrying_mutator :
    (∀ (k maxWait : Nat) (ce : APIError) (resp : ConfigureResponse)
       (rest : List ConfigureAttempt),
       IsConflict ce = true → (∀ i, i < k → 10 * i ≤ maxWait) →
       configureWithRetry (List.replicate k (.error ce) ++ .ok resp :: rest) maxWait
         = some (.ok resp, k + 1)) ∧
    (∀ (k maxWait : Nat) (ce : APIError) (rest : List ConfigureAttempt),
       IsConflict ce = true → (∀ i, i < k → 10 * i ≤ maxWait) →
       10 * k > maxWait →
       configureWithRetry (List.replicate k (.error ce) ++ .error ce :: rest) maxWait
         = some (.error (.timeout ce), k + 1)) ∧
    (∀ (k maxWait : Nat) (ce bad : APIError) (rest : List ConfigureAttempt),
       IsConflict ce = true → (∀ i, i < k → 10 * i ≤ maxWait) →
       IsConflict bad = false →
       configureWithRetry (List.replicate k (.error ce) ++ .error bad :: rest) maxWait
         = some (.error (.api bad), k + 1)) := by
  refine ⟨?_, ?_, ?_⟩
  · intro k maxWait ce resp rest hce h
    unfold configureWithRetry
    rw [configureWithRetryAux_skip ce hce k _ 0 maxWait (fun i hi => by
      have := h i hi; omega)]
    rw [configureWithRetryAux_ok]
    show some (Except.ok resp, 1 + k) = some (Except.ok resp, k + 1)
    rw [Nat.add_comm]
  · intro k maxWait ce rest hce h hdl
    unfold configureWithRetry
    rw [configureWithRetryAux_skip ce hce k _ 0 maxWait (fun i hi => by
      have := h i hi; omega)]
    rw [configureWithRetryAux_err, if_neg (by simp [hce]), if_pos (by omega)]
    show some (Except.error (ConfigureErr.timeout ce), 1 + k)
      = some (Except.error (ConfigureErr.timeout ce), k + 1)
    rw [Nat.add_comm]
  · intro k maxWait ce bad rest hce h hbad
    unfold configureWithRetry
    rw [configureWithRetryAux_skip ce hce k _ 0 maxWait (fun i hi => by
      have := h i hi; omega)]
    rw [configureWithRetryAux_err, if_pos (by simp [hbad])]
    show some (Except.error (ConfigureErr.api bad), 1 + k)
      = some (Except.error (ConfigureErr.api bad), k + 1)
    rw [Nat.add_comm]

/-- Witness for C1 at the source's 2-minute window: two conflicts then
success gives the third response; thirteen passing conflicts and one past
the deadline give the timeout wrapping the conflict; a 500 after one
conflict propagates at once. -/
theorem C1_conflict_retrying_mutator_witness :
    configureWithRetry
        (List.replicate 2 (.error ⟨409, "busy"⟩) ++ .ok {} :: []) 120
      = some (.ok {}, 3) ∧
    configureWithRetry
        (List.replicate 13 (.error ⟨409, "busy"⟩) ++ .error ⟨409, "busy"⟩ :: []) 120
      = some (.error (.timeout ⟨409, "busy"⟩), 14) ∧
    configureWithRetry
        (List.replicate 1 (.error ⟨409, "busy"⟩) ++ .error ⟨500, "boom"⟩ :: []) 120
      = some (.error (.api ⟨500, "boom"⟩), 2) :=
  ⟨C1_conflict_retrying_mutator.1 2 120 ⟨409, "busy"⟩ {} [] (by decide)
      (by decide),
   C1_conflict_retrying_mutator.2.1 13 120 ⟨409, "busy"⟩ [] (by decide)
      (by decide) (by decide),
   C1_conflict_retrying_mutator.2.2 1 120 ⟨409, "busy"⟩ ⟨500, "boom"⟩ []
      (by decide) (by decide) (by decide)⟩

/-- C10: in `WaitForJobComplete` the empty-list success check precedes
failure detection — an empty active-job list succeeds at once (whatever
polls would have followed), a failed job errors only out of a non-empty
poll, and a job that fails and leaves the active list between two polls
yields success. -/
theorem C10_empty_check_precedence :
    (∀ (rest : List (Except APIError (List Job))) (e t : Nat), e < t →
       waitForJobCompleteAux (.ok [] :: rest) e t = some (.ok (), 1)) ∧
    (∀ (jobs : List Job) (j : Job) (rest : List (Except APIError (List Job)))
       (e t : Nat), e < t →
       jobs.find? (fun j2 => j2.status == "failed") = some j →
       waitForJobCompleteAux (.ok jobs :: rest) e t
         = some (.error (.jobFailed j.id j.jobType j.errorMessage), 1)) ∧
    (∀ (running : List Job) (rest : List (Except APIError (List Job)))
       (e t : Nat), e + 10 < t → running ≠ [] →
       running.find? (fun j => j.status == "failed") = none →
       waitForJobCompleteAux (.ok running :: .ok [] :: rest) e t
         = some (.ok (), 2)) := by
  refine ⟨?_, ?_, ?_⟩
  · intro rest e t he
    rw [waitForJobCompleteAux_cons_ok, if_pos he]
    rfl
  · intro jobs j rest e t he hfind
    have hne : jobs ≠ [] := by
      intro hnil
      rw [hnil] at hfind
      exact Option.noConfusion hfind
    have hempty : jobs.isEmpty = false := by
      cases jobs with
      | nil => exact absurd rfl hne
      | cons a l => rfl
    rw [waitForJobCompleteAux_cons_ok, if_pos he,
       if_neg (by simp [hempty]), hfind]
  · intro running rest e t he hne hnf
    have hempty : running.isEmpty = false := by
      cases running with
      | nil => exact absurd rfl hne
      | cons a l => rfl
    rw [waitForJobCompleteAux_cons_ok, if_pos (by omega : e < t),
       if_neg (by simp [hempty]), hnf, waitForJobCompleteAux_cons_ok,
       if_pos he]
    rfl

/-- Witness for C10: an empty first poll succeeds after one poll; a failed
job in a non-empty poll errors with its details; running-then-empty polls
succeed after two polls. -/
theorem C10_empty_check_precedence_witness :
    waitForJobCompleteAux [.ok []] 0 300 = some (.ok (), 1) ∧
    waitForJobCompleteAux
        [.ok [{ id := 9, jobType := "cfg", status := "failed",
                errorMessage := "bad" }]] 0 300
      = some (.error (.jobFailed 9 "cfg" "bad"), 1) ∧
    waitForJobCompleteAux
        [.ok [{ id := 9, status := "running" }], .ok []] 0 300
      = some (.ok (), 2) :=
  ⟨C10_empty_check_precedence.1 [] 0 300 (by decide),
   C10_empty_check_precedence.2.1
      [{ id := 9, jobType := "cfg", status := "failed", errorMessage := "bad" }]
      { id := 9, jobType := "cfg", status := "failed", errorMessage := "bad" }
      [] 0 300 (by decide) (by decide),
   C10_empty_check_precedence.2.2 [{ id := 9, status := "running" }] [] 0 300
      (by decide) (by decide) (by decide)⟩

/-- Unfolding equation: a retry run whose first attempt succeeds. -/
theorem configureWithRetry_cons_ok (resp : ConfigureResponse)
    (rest : List ConfigureAttempt) (maxWait : Nat) :
    configureWithRetry (.ok resp :: rest) maxWait = some (.ok resp, 1) := rfl

/-- C3: when the configure call itself succeeds with a positive job id and
a later active-job poll (after any number of benign polls within the 5 min
window) contains a job with status "failed", the create fails with that
job's identifier, type and error message; when the returned job id is zero,
no active-job poll is made at all and the create completes on the immediate
response. -/
theorem C3_job_failure_propagation :
    (∀ (clusterIDRaw username : String) (cid : Int) (prior : Option String)
       (resp : ConfigureResponse)
       (pre rest : List (Except APIError (List Job)))
       (jobs : List Job) (j : Job),
       atoi clusterIDRaw = some cid →
       resp.jobID > 0 →
       (∀ p ∈ pre, ∃ js, p = .ok js ∧ js ≠ [] ∧
          js.find? (fun j2 => j2.status == "failed") = none) →
       10 * pre.length < 300 →
       jobs.find? (fun j2 => j2.status == "failed") = some j →
       clusterUserCreate clusterIDRaw username prior
           ⟨[.ok resp], pre ++ .ok jobs :: rest⟩
         = some (.error (.jobWait (.jobFailed j.id j.jobType j.errorMessage)),
                 pre.length + 1)) ∧
    (∀ (clusterIDRaw username : String) (cid : Int) (prior : Option String)
       (resp : ConfigureResponse) (polls : List (Except APIError (List Job))),
       atoi clusterIDRaw = some cid →
       resp.jobID = 0 →
       clusterUserCreate clusterIDRaw username prior ⟨[.ok resp], polls⟩
         = some (.ok { id := toString cid ++ "/" ++ username,
                       clusterID := clusterIDRaw
                       username := username
                       password := resolveUserPassword resp username prior },
                 0)) := by
  constructor
  · intro clusterIDRaw username cid prior resp pre rest jobs j hatoi hjob hben
      hdl hfind
    have hne : jobs ≠ [] := by
      intro hnil
      rw [hnil] at hfind
      exact Option.noConfusion hfind
    have hempty : jobs.isEmpty = false := by
      cases jobs with
      | nil => exact absurd rfl hne
      | cons a l => rfl
    have hw : waitForJobComplete (pre ++ .ok jobs :: rest) (5 * 60)
        = some (.error (.jobFailed j.id j.jobType j.errorMessage),
                pre.length + 1) := by
      unfold waitForJobComplete
      rw [waitForJobCompleteAux_skip pre _ 0 (5 * 60) hben (by omega)]
      rw [waitForJobCompleteAux_cons_ok, if_pos (by omega),
         if_neg (by simp [hempty]), hfind]
      show some (Except.error
        (JobWaitErr.jobFailed j.id j.jobType j.errorMessage), 1 + pre.length)
        = _
      rw [Nat.add_comm]
    simp only [clusterUserCreate, hatoi, configureWithRetry_cons_ok,
      if_pos hjob, hw]
  · intro clusterIDRaw username cid prior resp polls hatoi hjob
    simp only [clusterUserCreate, hatoi, configureWithRetry_cons_ok]
    rw [if_neg (by simp [hjob])]

/-- Witness for C3 at a concrete failed job and at a zero job id. -/
theorem C3_job_failure_propagation_witness :
    clusterUserCreate "7" "alice" none
        ⟨[.ok { jobID := 3 }],
         [.ok [{ id := 9, jobType := "cfg", status := "failed",
                 errorMessage := "bad" }]]⟩
      = some (.error (.jobWait (.jobFailed 9 "cfg" "bad")), 1) ∧
    clusterUserCreate "7" "alice" none ⟨[.ok { jobID := 0 }], []⟩
      = some (.ok { id := "7/alice", clusterID := "7", username := "alice",
                    password := none }, 0) :=
  ⟨C3_job_failure_propagation.1 "7" "alice" 7 none { jobID := 3 } [] []
      [{ id := 9, jobType := "cfg", status := "failed", errorMessage := "bad" }]
      { id := 9, jobType := "cfg", status := "failed", errorMessage := "bad" }
      (by decide) (by decide) (by intro p hp; cases hp) (by decide) (by decide),
   C3_job_failure_propagation.2 "7" "alice" 7 none { jobID := 0 } []
      (by decide) (by decide)⟩

/-- C2: scaling from 1 to 3 nodes issues exactly two add-node calls in
sequence, each followed by one job wait, before the final state refresh;
scaling from 3 to 1 first re-reads the cluster and then issues exactly two
remove-node calls named after the re-read tenant id with the highest
numeric suffix first ("-db-" ++ "3" then "-db-" ++ "2"), each followed by
one job wait; and the first add, remove or job-wait failure aborts the
remaining sequence at once (no further calls, no final refresh). -/
theorem C2_scale_sequencing :
    (∀ (c : Cluster) (rem : List (Except APIError Unit)),
       clusterUpdate 1 3
           ⟨[.ok (), .ok ()], rem, [.ok (), .ok ()], [.ok c]⟩
         = some (.ok (),
             [.addNode, .waitJob, .addNode, .waitJob, .getCluster])) ∧
    (∀ (c cf : Cluster) (add : List (Except APIError Unit)),
       clusterUpdate 3 1
           ⟨add, [.ok (), .ok ()], [.ok (), .ok ()], [.ok c, .ok cf]⟩
         = some (.ok (),
             [.getCluster, .removeNode (c.tenantID ++ "-db-" ++ "3"),
              .waitJob, .removeNode (c.tenantID ++ "-db-" ++ "2"),
              .waitJob, .getCluster])) ∧
    (∀ (e : APIError) (addRest rem : List (Except APIError Unit))
       (wait : List (Except JobWaitErr Unit))
       (get : List (Except APIError Cluster)),
       clusterUpdate 1 3 ⟨.error e :: addRest, rem, wait, get⟩
         = some (.error (.addNode e), [.addNode])) ∧
    (∀ (w : JobWaitErr) (addRest rem : List (Except APIError Unit))
       (waitRest : List (Except JobWaitErr Unit))
       (get : List (Except APIError Cluster)),
       clusterUpdate 1 3 ⟨.ok () :: addRest, rem, .error w :: waitRest, get⟩
         = some (.error (.addWait w), [.addNode, .waitJob])) ∧
    (∀ (c : Cluster) (e : APIError) (add remRest : List (Except APIError Unit))
       (wait : List (Except JobWaitErr Unit))
       (getRest : List (Except APIError Cluster)),
       clusterUpdate 3 1 ⟨add, .error e :: remRest, wait, .ok c :: getRest⟩
         = some (.error (.removeNode (c.tenantID ++ "-db-" ++ "3") e),
             [.getCluster, .removeNode (c.tenantID ++ "-db-" ++ "3")])) ∧
    (∀ (c : Cluster) (w : JobWaitErr) (add remRest : List (Except APIError Unit))
       (waitRest : List (Except JobWaitErr Unit))
       (getRest : List (Except APIError Cluster)),
       clusterUpdate 3 1
           ⟨add, .ok () :: remRest, .error w :: waitRest, .ok c :: getRest⟩
         = some (.error (.removeWait w),
             [.getCluster, .removeNode (c.tenantID ++ "-db-" ++ "3"),
              .waitJob])) := by
  refine ⟨?_, ?_, ?_, ?_, ?_, ?_⟩
  · intro c rem
    rfl
  · intro c cf add
    rfl
  · intro e addRest rem wait get
    rfl
  · intro w addRest rem waitRest get
    rfl
  · intro c e add remRest wait getRest
    rfl
  · intro c w add remRest waitRest getRest
    rfl

/-- C4 counterexample: a user create whose configure response omits the
user (no job spawned, so nothing else can intervene) ends successfully with
the password still unresolved (`none`) — not with an empty placeholder, and
with no cluster re-read (the user create path has no such call to make):
the claimed response → cluster re-read → default → empty-placeholder chain
does not apply to the user password. -/
theorem C4_counterexample :
    clusterUserCreate "7" "alice" none ⟨[.ok { jobID := 0 }], []⟩
      = some (.ok { id := "7/alice", clusterID := "7", username := "alice",
                    password := none }, 0) ∧
    resolveUserPassword { users := [] } "alice" none = none := by
  exact ⟨rfl, rfl⟩

/-- C4 as amended: the fallback chain (immediate response, then cluster
re-read, then caller-supplied value, then empty placeholder) holds for the
database owner and the extension database; the user password is taken from
the immediate configure response only and is otherwise left at its prior
(unknown) plan value. -/
theorem C4_generated_value_fallbacks :
    (∀ (resp : ConfigureResponse) (u : String) (prior : Option String)
       (cu : ConfigUserResponse),
       resp.users.find? (fun x => x.username == u) = some cu →
       resolveUserPassword resp u prior = some cu.password) ∧
    (∀ (resp : ConfigureResponse) (u : String) (prior : Option String),
       resp.users.find? (fun x => x.username == u) = none →
       resolveUserPassword resp u prior = prior) ∧
    (∀ (resp : ConfigureResponse) (db : String) (planOwner : Option String)
       (get : Except APIError Cluster) (d : ConfigDBResponse),
       resp.databases.find? (fun x => x.name == db) = some d →
       resolveDatabaseOwner resp db planOwner get = (d.owner, 0)) ∧
    (∀ (resp : ConfigureResponse) (db o : String)
       (get : Except APIError Cluster),
       resp.databases.find? (fun x => x.name == db) = none →
       resolveDatabaseOwner resp db (some o) get = (o, 0)) ∧
    (∀ (resp : ConfigureResponse) (db : String) (c : Cluster)
       (d : ClusterDatabaseRec),
       resp.databases.find? (fun x => x.name == db) = none →
       c.databases.find? (fun x => x.dbName == db) = some d →
       resolveDatabaseOwner resp db none (.ok c) = (d.owner, 1)) ∧
    (∀ (resp : ConfigureResponse) (db : String) (c : Cluster),
       resp.databases.find? (fun x => x.name == db) = none →
       c.databases.find? (fun x => x.dbName == db) = none →
       resolveDatabaseOwner resp db none (.ok c) = ("", 1)) ∧
    (∀ (resp : ConfigureResponse) (db : String) (e : APIError),
       resp.databases.find? (fun x => x.name == db) = none →
       resolveDatabaseOwner resp db none (.error e) = ("", 1)) ∧
    (∀ (resp : ConfigureResponse) (ext : String) (planDB : Option String)
       (get1 get2 : Except APIError Cluster) (x : ConfigExtResponse),
       resp.extensions.find? (fun y => y.extension == ext) = some x →
       x.database ≠ "" →
       resolveExtensionDatabase resp ext planDB get1 get2 = (x.database, 0)) ∧
    (∀ (resp : ConfigureResponse) (ext : String) (planDB : Option String)
       (c1 : Cluster) (get2 : Except APIError Cluster)
       (x : ClusterExtensionRec),
       resp.extensions.find? (fun y => y.extension == ext) = none →
       c1.extensions.find? (fun y => y.extension == ext) = some x →
       x.database ≠ "" →
       resolveExtensionDatabase resp ext planDB (.ok c1) get2
         = (x.database, 1)) ∧
    (∀ (resp : ConfigureResponse) (ext d : String) (e1 : APIError)
       (get2 : Except APIError Cluster),
       resp.extensions.find? (fun y => y.extension == ext) = none →
       resolveExtensionDatabase resp ext (some d) (.error e1) get2
         = (d, 1)) ∧
    (∀ (resp : ConfigureResponse) (ext : String) (e1 : APIError)
       (c2 : Cluster),
       resp.extensions.find? (fun y => y.extension == ext) = none →
       resolveExtensionDatabase resp ext none (.error e1) (.ok c2)
         = (c2.dbName, 2)) ∧
    (∀ (resp : ConfigureResponse) (ext : String) (e1 e2 : APIError),
       resp.extensions.find? (fun y => y.extension == ext) = none →
       resolveExtensionDatabase resp ext none (.error e1) (.error e2)
         = ("", 2)) := by
  refine ⟨?_, ?_, ?_, ?_, ?_, ?_, ?_, ?_, ?_, ?_, ?_, ?_⟩
  · intro resp u prior cu hfind
    unfold resolveUserPassword
    rw [hfind]
  · intro resp u prior hfind
    unfold resolveUserPassword
    rw [hfind]
  · intro resp db planOwner get d hfind
    unfold resolveDatabaseOwner
    rw [hfind]
  · intro resp db o get hfind
    unfold resolveDatabaseOwner
    rw [hfind]
  · intro resp db c d hresp hclu
    unfold resolveDatabaseOwner
    rw [hresp]
    dsimp only
    rw [hclu]
    rfl
  · intro resp db c hresp hclu
    unfold resolveDatabaseOwner
    rw [hresp]
    dsimp only
    rw [hclu]
    rfl
  · intro resp db e hresp
    unfold resolveDatabaseOwner
    rw [hresp]
    rfl
  · intro resp ext planDB get1 get2 x hfind hne
    unfold resolveExtensionDatabase
    rw [hfind, if_neg (by simp [hne])]
  · intro resp ext planDB c1 get2 x hresp hclu hne
    unfold resolveExtensionDatabase
    rw [hresp]
    dsimp only
    rw [if_pos (show (("" : String) == "") = true from rfl)]
    rw [hclu]
    rw [if_neg (by simp [hne])]
  · intro resp ext d e1 get2 hresp
    unfold resolveExtensionDatabase
    rw [hresp]
    rfl
  · intro resp ext e1 c2 hresp
    unfold resolveExtensionDatabase
    rw [hresp]
    rfl
  · intro resp ext e1 e2 hresp
    unfold resolveExtensionDatabase
    rw [hresp]
    rfl

/-- Witness for C4 (amended) across all chain positions at concrete
records. -/
theorem C4_generated_value_fallbacks_witness :
    resolveUserPassword { users := [⟨"alice", "pw"⟩] } "alice" none
      = some "pw" ∧
    resolveUserPassword { users := [] } "bob" (some "old") = some "old" ∧
    resolveDatabaseOwner { databases := [⟨"db1", "own1"⟩] } "db1" none
        (.error ⟨500, "x"⟩) = ("own1", 0) ∧
    resolveDatabaseOwner {} "db1" (some "planned") (.error ⟨500, "x"⟩)
      = ("planned", 0) ∧
    resolveDatabaseOwner {} "db1" none
        (.ok { databases := [⟨"db1", "own2"⟩] }) = ("own2", 1) ∧
    resolveDatabaseOwner {} "db1" none (.ok { databases := [] }) = ("", 1) ∧
    resolveDatabaseOwner {} "db1" none (.error ⟨500, "x"⟩) = ("", 1) ∧
    resolveExtensionDatabase { extensions := [⟨"vector", "appdb"⟩] }
        "vector" none (.error ⟨500, "x"⟩) (.error ⟨500, "x"⟩)
      = ("appdb", 0) ∧
    resolveExtensionDatabase {} "vector" none
        (.ok { extensions := [⟨"vector", "maindb"⟩] }) (.error ⟨500, "x"⟩)
      = ("maindb", 1) ∧
    resolveExtensionDatabase {} "vector" (some "plandb") (.error ⟨500, "x"⟩)
        (.error ⟨500, "x"⟩) = ("plandb", 1) ∧
    resolveExtensionDatabase {} "vector" none (.error ⟨500, "x"⟩)
        (.ok { dbName := "defdb" }) = ("defdb", 2) ∧
    resolveExtensionDatabase {} "vector" none (.error ⟨500, "x"⟩)
        (.error ⟨500, "x"⟩) = ("", 2) :=
  ⟨C4_generated_value_fallbacks.1 _ "alice" none ⟨"alice", "pw"⟩ (by decide),
   C4_generated_value_fallbacks.2.1 _ "bob" (some "old") (by decide),
   C4_generated_value_fallbacks.2.2.1 _ "db1" none _ ⟨"db1", "own1"⟩
      (by decide),
   C4_generated_value_fallbacks.2.2.2.1 _ "db1" "planned" _ (by decide),
   C4_generated_value_fallbacks.2.2.2.2.1 _ "db1" _ ⟨"db1", "own2"⟩
      (by decide) (by decide),
   C4_generated_value_fallbacks.2.2.2.2.2.1 _ "db1" _ (by decide) (by decide),
   C4_generated_value_fallbacks.2.2.2.2.2.2.1 _ "db1" _ (by decide),
   C4_generated_value_fallbacks.2.2.2.2.2.2.2.1 _ "vector" none _ _
      ⟨"vector", "appdb"⟩ (by decide) (by decide),
   C4_generated_value_fallbacks.2.2.2.2.2.2.2.2.1 _ "vector" none _ _
      ⟨"vector", "maindb"⟩ (by decide) (by decide) (by decide),
   C4_generated_value_fallbacks.2.2.2.2.2.2.2.2.2.1 _ "vector" "plandb" _ _
      (by decide),
   C4_generated_value_fallbacks.2.2.2.2.2.2.2.2.2.2.1 _ "vector" _ _
      (by decide),
   C4_generated_value_fallbacks.2.2.2.2.2.2.2.2.2.2.2 _ "vector" _ _
      (by decide)⟩

/-- Unfolding equation for a successful cluster fetch in the active poller. -/
theorem waitForClusterActiveAux_cons_ok (c : Cluster)
    (rest : List (Except APIError Cluster)) (e t : Nat) :
    waitForClusterActiveAux (.ok c :: rest) e t
      = if e < t then
          if c.status == "active" then some (.ok c)
          else if c.status == "failed" then
            some (.error (.provisionFailed c.errorMessage))
          else if c.status == "provisioning" then
            waitForClusterActiveAux rest (e + 15) t
          else some (.error (.unexpectedStatus c.status))
        else some (.error .timeout) := rfl

/-- Unfolding equation for a successful cluster fetch in the deletion
poller. -/
theorem waitForClusterDeletedAux_cons_ok (c : Cluster)
    (rest : List (Except APIError Cluster)) (e t : Nat) :
    waitForClusterDeletedAux (.ok c :: rest) e t
      = if e < t then
          if c.status == "deleted" then some (.ok ())
          else waitForClusterDeletedAux rest (e + 10) t
        else some (.error .timeout) := rfl

/-- C5 counterexample: `WaitForClusterDeleted` does NOT fail hard on an
unknown status — fed a poll with the unrecognized status "degraded"
followed by one with "deleted", it silently retries past the unknown value
and returns success. -/
theorem C5_counterexample :
    waitForClusterDeleted
        [.ok { status := "degraded" }, .ok { status := "deleted" }] (10 * 60)
      = some (.ok ()) := rfl

/-- C5 as amended: `WaitForClusterActive` hard-fails on any status outside
active / failed / provisioning, but `WaitForClusterDeleted` treats every
status other than "deleted" as still-deleting and keeps polling. -/
theorem C5_unknown_status_handling :
    (∀ (c : Cluster) (rest : List (Except APIError Cluster)) (e t : Nat),
       e < t → c.status ≠ "active" → c.status ≠ "failed" →
       c.status ≠ "provisioning" →
       waitForClusterActiveAux (.ok c :: rest) e t
         = some (.error (.unexpectedStatus c.status))) ∧
    (∀ (c : Cluster) (rest : List (Except APIError Cluster)) (e t : Nat),
       e < t → c.status ≠ "deleted" →
       waitForClusterDeletedAux (.ok c :: rest) e t
         = waitForClusterDeletedAux rest (e + 10) t) := by
  constructor
  · intro c rest e t he h1 h2 h3
    rw [waitForClusterActiveAux_cons_ok, if_pos he, if_neg (by simp [h1]),
       if_neg (by simp [h2]), if_neg (by simp [h3])]
  · intro c rest e t he h1
    rw [waitForClusterDeletedAux_cons_ok, if_pos he, if_neg (by simp [h1])]

/-- Witness for C5 (amended) at the unrecognized status "degraded". -/
theorem C5_unknown_status_handling_witness :
    waitForClusterActiveAux [.ok { status := "degraded" }] 0 1500
      = some (.error (.unexpectedStatus "degraded")) ∧
    waitForClusterDeletedAux [.ok { status := "degraded" }] 0 600
      = waitForClusterDeletedAux [] 10 600 :=
  ⟨C5_unknown_status_handling.1 { status := "degraded" } [] 0 1500
      (by decide) (by decide) (by decide) (by decide),
   C5_unknown_status_handling.2 { status := "degraded" } [] 0 600
      (by decide) (by decide)⟩

/-- C6: every delete path with real remote deletion support treats a
404/410 from the remote call as success, and surfaces any other
(non-conflict) remote error as a failure. -/
theorem C6_absence_as_success :
    (∀ (e : APIError) (waitPolls : List (Except APIError Cluster))
       (jobPolls : List (Except APIError (List Job))),
       (IsNotFound e || IsGone e) = true →
       clusterDelete (.error e) waitPolls = some (.ok ()) ∧
       clusterUserDelete ⟨[.error e], jobPolls⟩ = some (.ok ()) ∧
       clusterDatabaseDelete ⟨[.error e], jobPolls⟩ = some (.ok ()) ∧
       clusterFirewallDelete [.error e] = some (.ok ()) ∧
       clusterBackupConfigDelete (.error e) = .ok ()) ∧
    (∀ (e : APIError) (waitPolls : List (Except APIError Cluster))
       (jobPolls : List (Except APIError (List Job))),
       (IsNotFound e || IsGone e) = false → IsConflict e = false →
       clusterDelete (.error e) waitPolls = some (.error (.api e)) ∧
       clusterUserDelete ⟨[.error e], jobPolls⟩
         = some (.error (.configure (.api e))) ∧
       clusterDatabaseDelete ⟨[.error e], jobPolls⟩
         = some (.error (.configure (.api e))) ∧
       clusterFirewallDelete [.error e] = some (.error (.api e)) ∧
       clusterBackupConfigDelete (.error e) = .error e) := by
  constructor
  · intro e waitPolls jobPolls h
    have hnc : IsConflict e = false := by
      simp only [IsNotFound, IsGone, Bool.or_eq_true, beq_iff_eq] at h
      unfold IsConflict
      rcases h with h4 | h4 <;> simp [h4]
    have hcw : configureWithRetry [Except.error e] (2 * 60)
        = some (.error (.api e), 1) := by
      unfold configureWithRetry
      rw [configureWithRetryAux_err, if_pos (by simp [hnc])]
    refine ⟨?_, ?_, ?_, ?_, ?_⟩
    · unfold clusterDelete
      dsimp only
      rw [if_pos h]
    · unfold clusterUserDelete
      dsimp only
      rw [hcw]
      dsimp only
      rw [if_pos (show configureErrAbsent (.api e) = true from h)]
    · unfold clusterDatabaseDelete
      dsimp only
      rw [hcw]
      dsimp only
      rw [if_pos (show configureErrAbsent (.api e) = true from h)]
    · unfold clusterFirewallDelete
      rw [hcw]
      dsimp only
      rw [if_pos (show configureErrAbsent (.api e) = true from h)]
    · show (if (IsNotFound e || IsGone e) = true then Except.ok ()
          else Except.error e) = Except.ok ()
      rw [if_pos h]
  · intro e waitPolls jobPolls h hnc
    have hcw : configureWithRetry [Except.error e] (2 * 60)
        = some (.error (.api e), 1) := by
      unfold configureWithRetry
      rw [configureWithRetryAux_err, if_pos (by simp [hnc])]
    refine ⟨?_, ?_, ?_, ?_, ?_⟩
    · unfold clusterDelete
      dsimp only
      rw [if_neg (by simp [h])]
    · unfold clusterUserDelete
      dsimp only
      rw [hcw]
      dsimp only
      rw [if_neg (by simp [show configureErrAbsent (.api e) = false from h])]
    · unfold clusterDatabaseDelete
      dsimp only
      rw [hcw]
      dsimp only
      rw [if_neg (by simp [show configureErrAbsent (.api e) = false from h])]
    · unfold clusterFirewallDelete
      rw [hcw]
      dsimp only
      rw [if_neg (by simp [show configureErrAbsent (.api e) = false from h])]
    · show (if (IsNotFound e || IsGone e) = true then Except.ok ()
          else Except.error e) = Except.error e
      rw [if_neg (by simp [h])]

/-- Witness for C6 at a 404, a 410 and a 500. -/
theorem C6_absence_as_success_witness :
    (clusterDelete (.error ⟨404, "nf"⟩) [] = some (.ok ()) ∧
     clusterUserDelete ⟨[.error ⟨404, "nf"⟩], []⟩ = some (.ok ()) ∧
     clusterDatabaseDelete ⟨[.error ⟨404, "nf"⟩], []⟩ = some (.ok ()) ∧
     clusterFirewallDelete [.error ⟨404, "nf"⟩] = some (.ok ()) ∧
     clusterBackupConfigDelete (.error ⟨404, "nf"⟩) = .ok ()) ∧
    (clusterDelete (.error ⟨410, "gone"⟩) [] = some (.ok ()) ∧
     clusterUserDelete ⟨[.error ⟨410, "gone"⟩], []⟩ = some (.ok ()) ∧
     clusterDatabaseDelete ⟨[.error ⟨410, "gone"⟩], []⟩ = some (.ok ()) ∧
     clusterFirewallDelete [.error ⟨410, "gone"⟩] = some (.ok ()) ∧
     clusterBackupConfigDelete (.error ⟨410, "gone"⟩) = .ok ()) ∧
    (clusterDelete (.error ⟨500, "boom"⟩) []
       = some (.error (.api ⟨500, "boom"⟩)) ∧
     clusterUserDelete ⟨[.error ⟨500, "boom"⟩], []⟩
       = some (.error (.configure (.api ⟨500, "boom"⟩))) ∧
     clusterDatabaseDelete ⟨[.error ⟨500, "boom"⟩], []⟩
       = some (.error (.configure (.api ⟨500, "boom"⟩))) ∧
     clusterFirewallDelete [.error ⟨500, "boom"⟩]
       = some (.error (.api ⟨500, "boom"⟩)) ∧
     clusterBackupConfigDelete (.error ⟨500, "boom"⟩) = .error ⟨500, "boom"⟩) :=
  ⟨C6_absence_as_success.1 ⟨404, "nf"⟩ [] [] (by decide),
   C6_absence_as_success.1 ⟨410, "gone"⟩ [] [] (by decide),
   C6_absence_as_success.2 ⟨500, "boom"⟩ [] [] (by decide) (by decide)⟩

/-- C7: firewall create and update both submit the complete desired IP set
with the replace flag set and an empty delete list (full replace, never a
diff or a merge — so under the envelope's replace semantics the allowlist
after an update is exactly the latest desired set), and firewall delete
submits exactly the single-entry allow-all set with the replace flag, never
an empty set. -/
theorem C7_firewall_replace_semantics :
    ∀ (ips1 ips2 current : List String),
      firewallCreateRequest ips1
        = { sourceIPs := ips1, deleteIPs := [], replaceIPs := true } ∧
      firewallUpdateRequest ips2
        = { sourceIPs := ips2, deleteIPs := [], replaceIPs := true } ∧
      applySourceIPs (applySourceIPs current (firewallCreateRequest ips1))
          (firewallUpdateRequest ips2) = ips2 ∧
      firewallDeleteRequest
        = { sourceIPs := ["0.0.0.0/0"], deleteIPs := [], replaceIPs := true } ∧
      firewallDeleteRequest.sourceIPs ≠ [] ∧
      applySourceIPs current firewallDeleteRequest = ["0.0.0.0/0"] := by
  intro ips1 ips2 current
  exact ⟨rfl, rfl, rfl, rfl, List.cons_ne_nil _ _, rfl⟩

/-- C8: deleting an extension or a grant issues no remote call at all,
succeeds locally whatever state the remote system is in, and emits an
operator-facing warning that the remote object persists. -/
theorem C8_local_only_delete :
    ∀ (remote : ConfigureScript),
      (clusterExtensionDelete remote).remoteCalls = 0 ∧
      (clusterExtensionDelete remote).succeeded = true ∧
      (clusterExtensionDelete remote).warnings ≠ [] ∧
      (clusterGrantDelete remote).remoteCalls = 0 ∧
      (clusterGrantDelete remote).succeeded = true ∧
      (clusterGrantDelete remote).warnings ≠ [] := by
  intro remote
  exact ⟨rfl, rfl, List.cons_ne_nil _ _, rfl, rfl, List.cons_ne_nil _ _⟩

/-- C9 counterexample: the composite id "1/a/b" has three slash-separated
parts where `clusterID/name` expects two, yet `parseUserID` silently
accepts it (folding the surplus into the username) and the read proceeds to
make the remote `GetCluster` call instead of failing with a parse error. -/
theorem C9_counterexample :
    parseUserID "1/a/b" = .ok (1, "a/b") ∧
    clusterUserRead "1/a/b" (.ok { users := [] }) = (.removed, 1) :=
  ⟨rfl, by decide⟩

/-- C9 as amended: a composite id with too few slash-separated parts or a
non-numeric cluster-id prefix fails parsing with a descriptive error, and a
parse failure aborts the read before any remote call; but an id with extra
slashes is accepted, the surplus folded into the final name component. -/
theorem C9_composite_id_parsing :
    (∀ (id msg : String) (get : Except APIError Cluster),
       parseUserID id = .error msg →
       clusterUserRead id get = (.parseErr msg, 0)) ∧
    (∀ id : String, (splitN id 2).length ≠ 2 →
       parseUserID id = .error "expected format: cluster_id/username") ∧
    (∀ (id a b : String), splitN id 2 = [a, b] → atoi a = none →
       parseUserID id = .error "invalid cluster ID") ∧
    (∀ (id a b : String) (cid : Int), splitN id 2 = [a, b] →
       atoi a = some cid → parseUserID id = .ok (cid, b)) ∧
    (∀ id : String, (splitN id 3).length ≠ 3 →
       parseGrantID id
         = .error "expected format: cluster_id/username/database") ∧
    (∀ id : String, (splitN id 3).length ≠ 3 →
       parseExtensionID id
         = .error "expected format: cluster_id/extension/database") := by
  refine ⟨?_, ?_, ?_, ?_, ?_, ?_⟩
  · intro id msg get hparse
    unfold clusterUserRead
    rw [hparse]
  · intro id hlen
    unfold parseUserID
    cases h : splitN id 2 with
    | nil => rfl
    | cons a rest =>
      cases rest with
      | nil => rfl
      | cons b rest2 =>
        cases rest2 with
        | nil =>
          rw [h] at hlen
          simp at hlen
        | cons c rest3 => rfl
  · intro id a b hsplit hatoi
    unfold parseUserID
    rw [hsplit]
    dsimp only
    rw [hatoi]
  · intro id a b cid hsplit hatoi
    unfold parseUserID
    rw [hsplit]
    dsimp only
    rw [hatoi]
  · intro id hlen
    unfold parseGrantID
    cases h : splitN id 3 with
    | nil => rfl
    | cons a rest =>
      cases rest with
      | nil => rfl
      | cons b rest2 =>
        cases rest2 with
        | nil => rfl
        | cons c rest3 =>
          cases rest3 with
          | nil =>
            rw [h] at hlen
            simp at hlen
          | cons d rest4 => rfl
  · intro id hlen
    unfold parseExtensionID
    cases h : splitN id 3 with
    | nil => rfl
    | cons a rest =>
      cases rest with
      | nil => rfl
      | cons b rest2 =>
        cases rest2 with
        | nil => rfl
        | cons c rest3 =>
          cases rest3 with
          | nil =>
            rw [h] at hlen
            simp at hlen
          | cons d rest4 => rfl

/-- Witness for C9 (amended) at concrete malformed and well-formed ids. -/
theorem C9_composite_id_parsing_witness :
    clusterUserRead "abc" (.ok {})
      = (.parseErr "expected format: cluster_id/username", 0) ∧
    parseUserID "abc" = .error "expected format: cluster_id/username" ∧
    parseUserID "xy/foo" = .error "invalid cluster ID" ∧
    parseUserID "12/foo" = .ok (12, "foo") ∧
    parseGrantID "1/u" = .error "expected format: cluster_id/username/database" ∧
    parseExtensionID "1/v"
      = .error "expected format: cluster_id/extension/database" :=
  ⟨C9_composite_id_parsing.1 "abc" _ _ rfl,
   C9_composite_id_parsing.2.1 "abc" (by decide),
   C9_composite_id_parsing.2.2.1 "xy/foo" "xy" "foo" (by decide) (by decide),
   C9_composite_id_parsing.2.2.2.1 "12/foo" "12" "foo" 12 (by decide)
      (by decide),
   C9_composite_id_parsing.2.2.2.2.1 "1/u" (by decide),
   C9_composite_id_parsing.2.2.2.2.2 "1/v" (by decide)⟩

end Rivestack
